import Mathlib

/-!
Shallow embedding of `src/actinia_core/resources/common/process_queue.py`.

The embedding models:
* the shape of messages travelling on the multiprocessing queue (`PyVal`),
  together with the Python semantics of the two dispatch conditions in
  `start_process_queue_manager`, namely the membership test
  `"STOP" in data` and the length test `len(data) == 3` (both of which can
  raise `TypeError` on values that are neither strings nor tuples);
* the per-job wrapper `EnqueuedProcess` (fields `timeout`, `init_time`,
  `started`, the observable exit code, and the operations `terminate`,
  `check_timeout`, `check_exit`);
* `EnqueuedProcess._send_resource_update` over an explicit association-list
  model of the redis-backed resource store;
* one iteration of the supervisor loop `start_process_queue_manager`
  (dispatch, submission, admission, reap, eviction, shutdown drain),
  with the side effects (`start`, `terminate`, channel close) reified
  into an explicit effect list so that call patterns can be stated.

Timestamps and durations are modelled as integers; the Python code uses
floats but every claim about them is an order comparison or a difference,
which the integer model reflects faithfully.
-/

namespace ProcessQueue

/-- Python values, as far as messages on the process queue are concerned.
Strings, integers, `None` and (arbitrarily nested) tuples cover the shapes
relevant to the dispatch code. -/
inductive PyVal where
  | pyStr : String → PyVal
  | pyInt : Int → PyVal
  | pyNone : PyVal
  | pyTuple : List PyVal → PyVal

/-- Whether the first list is a prefix of the second, comparing characters. -/
def listStartsWith : List Char → List Char → Bool
  | [], _ => true
  | _ :: _, [] => false
  | a :: as, b :: bs => a == b && listStartsWith as bs

/-- Whether the first list occurs as a contiguous sublist of the second. -/
def hasSubstr (needle : List Char) : List Char → Bool
  | [] => needle.isEmpty
  | c :: rest => listStartsWith needle (c :: rest) || hasSubstr needle rest

/-- Python substring containment: `needle in hay` for strings. -/
def strContains (hay needle : String) : Bool :=
  hasSubstr needle.toList hay.toList

/-- Python equality of a queue value with the string literal `"STOP"`:
only the string `"STOP"` itself compares equal. -/
def isSTOPStr : PyVal → Bool
  | .pyStr s => s == "STOP"
  | _ => false

/-- Python semantics of the expression `"STOP" in data` from the manager
loop: substring test on strings, element-equality test on tuples, and a
`TypeError` (modelled as `Except.error`) on ints and `None`. -/
def hasSTOP : PyVal → Except Unit Bool
  | .pyStr s => .ok (strContains s "STOP")
  | .pyTuple xs => .ok (xs.any isSTOPStr)
  | _ => .error ()

/-- Python semantics of `len(data)`: defined on strings and tuples,
`TypeError` on ints and `None`. -/
def pyLen : PyVal → Except Unit Nat
  | .pyStr s => .ok s.length
  | .pyTuple xs => .ok xs.length
  | _ => .error ()

/-- Python semantics of the unpacking `func, timeout, args = data` for a
value of length 3: a 3-tuple unpacks into its fields and a 3-character
string unpacks into its three 1-character strings.  Returns `none` exactly
when the sized value does not have length 3. -/
def unpack3 : PyVal → Option (PyVal × PyVal × PyVal)
  | .pyTuple [a, b, c] => some (a, b, c)
  | .pyStr s =>
    match s.toList with
    | [a, b, c] => some (.pyStr (String.mk [a]), .pyStr (String.mk [b]), .pyStr (String.mk [c]))
    | _ => none
  | _ => none

/-- Outcome of the message dispatch at the top of one iteration of
`start_process_queue_manager`. -/
inductive Dispatch where
  | shutdown
  | submission (func timeoutv args : PyVal)
  | ignored
  | typeError

/-- The dispatch logic of the manager loop, translated from the guards
`if data is not None and "STOP" in data:` and
`if data is not None and len(data) == 3:`.  `None` is filtered out by the
`is not None` guard before any type-sensitive operation runs; for string
and tuple data `len(data)` is defined whenever `"STOP" in data` was, so
`unpack3` alone decides the submission branch. -/
def dispatch : PyVal → Dispatch
  | .pyNone => .ignored
  | d =>
    match hasSTOP d with
    | .error _ => .typeError
    | .ok true => .shutdown
    | .ok false =>
      match unpack3 d with
      | some (f, t, a) => .submission f t a
      | none => .ignored

/-- Internal effect trace of `EnqueuedProcess.terminate`: the cooperative
termination notice written to the resource store, the fixed grace-period
sleep, the conditional forceful kill, and the final status update. -/
inductive TermEffect where
  | commitTermination (user_id resource_id : String)
  | sleepGrace
  | forceKill
  | sendUpdate (status message : String)
deriving DecidableEq

/-- `EnqueuedProcess.terminate(status, message)`: always commit the
cooperative termination request and sleep the grace period; call
`self.process.terminate()` only if the process is still alive at the check;
always attempt `_send_resource_update`.  `alive` is the value of
`self.process.is_alive()` at the check (False both for a process that
already exited and for one that was never started); no branch of the
Python body can raise on a dead process, so the function is total. -/
def terminate (alive : Bool) (user_id resource_id status message : String) :
    List TermEffect :=
  [.commitTermination user_id resource_id, .sleepGrace]
    ++ (if alive then [.forceKill] else [])
    ++ [.sendUpdate status message]

/-- The scheduler-visible state of one `EnqueuedProcess`.  `wid` models
Python object identity (each constructed wrapper is a distinct object);
`timeout` and `init_time` are the constructor arguments `timeout` and
`time.time()`; `started` is the `self.started` flag; `exit_code` is the
observable `self.process.exitcode` (`None` while running or not started). -/
structure Wrapper where
  wid : Nat
  timeout : Int
  init_time : Int
  started : Bool
  exit_code : Option Int
deriving DecidableEq

/-- A recorded call of `EnqueuedProcess.terminate`, identified by the
wrapper it was invoked on and the `status`/`message` arguments. -/
structure TermCall where
  wid : Nat
  status : String
  message : String
deriving DecidableEq

/-- The message interpolated by `check_timeout` for its terminate call. -/
def timeoutMessage (timeout : Int) : String :=
  "Processes exceeded timeout (" ++ toString timeout ++
    ") in waiting queue and was terminated."

/-- `EnqueuedProcess.check_timeout`: only when `self.started is False`,
compare `self.timeout < time.time() - self.init_time`; on excess call
`self.terminate(status="timeout", ...)` and return True, otherwise return
False.  The second component records the terminate call, if any. -/
def check_timeout (w : Wrapper) (now : Int) : Bool × Option TermCall :=
  if w.started = false then
    if w.timeout < now - w.init_time then
      (true, some ⟨w.wid, "timeout", timeoutMessage w.timeout⟩)
    else
      (false, none)
  else
    (false, none)

/-- `EnqueuedProcess.check_exit`: would send an error status update on a
non-zero exit code.  Present in the source, but its only call site (in the
reap scan of the manager loop) is commented out, so it is dead code. -/
def check_exit (w : Wrapper) : Option (String × String) :=
  match w.exit_code with
  | none => none
  | some c =>
    if c ≠ 0 then
      some ("error", "The process unexpectedly terminated with exit code " ++ toString c)
    else
      none

/-- The mutable state owned by the manager loop: the sets `running_procs`
and `waiting_processes` (modelled as lists of distinct wrappers), plus a
counter supplying fresh identities for newly constructed wrappers. -/
structure SchedState where
  running : List Wrapper
  waiting : List Wrapper
  nextId : Nat
deriving DecidableEq

/-- Initial state of the manager loop: both sets empty. -/
def initState : SchedState := ⟨[], [], 0⟩

/-- Coercion of the timeout field of a submission message to a duration.
Submissions produced by `enqueue_job` carry a numeric timeout; a
non-numeric value would only fault later, inside `check_timeout`, and is
outside the scope of the claims. -/
def asInt : PyVal → Int
  | .pyInt n => n
  | _ => 0

/-- Construction of `EnqueuedProcess(func, timeout, resource_logger, args)`
at dequeue time: `started = False`, `init_time = time.time()`, no exit
code yet. -/
def mkWrapper (nid : Nat) (timeoutv : PyVal) (now : Int) : Wrapper :=
  ⟨nid, asInt timeoutv, now, false, none⟩

/-- The submission branch of the loop: construct a wrapper and add it to
`waiting_processes`. -/
def submitStep (now : Int) (timeoutv : PyVal) (s : SchedState) : SchedState :=
  { s with waiting := s.waiting ++ [mkWrapper s.nextId timeoutv now],
           nextId := s.nextId + 1 }

/-- The observable actions of one loop iteration: `start()` on a wrapper,
a `terminate(status, message)` call, and `queue.close()`. -/
inductive Effect where
  | start (wid : Nat)
  | term (c : TermCall)
  | closeChannel
deriving DecidableEq

/-- The admission step of the loop, translated from
`if len(running_procs) < config.NUMBER_OF_WORKERS: if len(waiting_processes) > 0:`
followed by one `pop`, one `add` and one `enqproc.start()`.  The Python
`set.pop` removes an arbitrary element; the model pops the head of the
list (the claims do not depend on the selection).  `start()` sets the
`started` flag of the admitted wrapper. -/
def admissionStep (cap : Nat) (s : SchedState) : SchedState × List Effect :=
  if s.running.length < cap then
    match s.waiting with
    | [] => (s, [])
    | w :: ws =>
      ({ s with running := { w with started := true } :: s.running, waiting := ws },
       [Effect.start w.wid])
  else
    (s, [])

/-- Environment step, not part of the translated source: between loop
iterations the operating system may deliver exit codes for started
processes.  `exits` is the oracle consulted where the reap scan reads
`enqproc.exitcode()`. -/
def applyExits (exits : Nat → Option Int) (s : SchedState) : SchedState :=
  { s with running := s.running.map (fun w =>
      if w.started && w.exit_code.isNone then { w with exit_code := exits w.wid } else w) }

/-- The reap step of the loop: collect every running wrapper with
`started is True and exitcode() is not None` into `procs_to_remove`, then
remove them all from `running_procs`.  The call `enqproc.check_exit()` on
reaped wrappers is commented out in the source, so the step emits no
status update, whatever the exit codes; the second component is the
(always empty) list of update calls it performs. -/
def reapStep (s : SchedState) : SchedState × List TermCall :=
  ({ s with running := s.running.filter (fun w => !(w.started && w.exit_code.isSome)) },
   [])

/-- The eviction step of the loop: run `check_timeout()` on every waiting
wrapper, collect those that report True into `procs_to_remove`, then
remove them from `waiting_processes`.  The effect list records the
terminate calls issued from inside `check_timeout`. -/
def evictStep (now : Int) (s : SchedState) : SchedState × List Effect :=
  let checks := s.waiting.map (fun w => (w, check_timeout w now))
  ({ s with waiting := (checks.filter (fun p => !p.2.1)).map Prod.fst },
   checks.filterMap (fun p => p.2.2.map Effect.term))

/-- The terminate message used for running wrappers on shutdown. -/
def runningShutdownMsg : String :=
  "Running process was terminated by server shutdown."

/-- The terminate message used for waiting wrappers on shutdown. -/
def waitingShutdownMsg : String :=
  "Waiting process was terminated by server shutdown."

/-- The drain executed when the STOP branch is taken: terminate every
running wrapper, then every waiting wrapper, both with status `"error"`,
then close the channel and return from the loop. -/
def shutdownEffects (s : SchedState) : List Effect :=
  s.running.map (fun w => Effect.term ⟨w.wid, "error", runningShutdownMsg⟩)
    ++ s.waiting.map (fun w => Effect.term ⟨w.wid, "error", waitingShutdownMsg⟩)
    ++ [Effect.closeChannel]

/-- Result of one loop iteration: continue with a new state having emitted
some effects, return after the shutdown drain, or propagate a Python
`TypeError` out of the dispatch guards (the surrounding `except: raise`
re-raises, so the loop is aborted). -/
inductive IterOut where
  | cont (s : SchedState) (effects : List Effect)
  | stopped (effects : List Effect)
  | fault
deriving DecidableEq

/-- The housekeeping tail of one iteration: admission, exit-code delivery,
reap, eviction. -/
def housekeeping (cap : Nat) (now : Int) (exits : Nat → Option Int)
    (s : SchedState) : IterOut :=
  let pAdm := admissionStep cap s
  let pReap := reapStep (applyExits exits pAdm.1)
  let pEv := evictStep now pReap.1
  .cont pEv.1 (pAdm.2 ++ pReap.2.map Effect.term ++ pEv.2)

/-- One iteration of the `while True` body of
`start_process_queue_manager`: dequeue (`msg = none` models the
`queue.Empty` timeout), dispatch on the message, then fall through to
admission, reap and eviction — except that the STOP branch drains both
sets, closes the channel and returns, and a dispatch `TypeError`
propagates. -/
def loopIter (cap : Nat) (now : Int) (exits : Nat → Option Int)
    (msg : Option PyVal) (s : SchedState) : IterOut :=
  match msg with
  | none => housekeeping cap now exits s
  | some d =>
    match dispatch d with
    | .typeError => .fault
    | .shutdown => .stopped (shutdownEffects s)
    | .submission _ t _ => housekeeping cap now exits (submitStep now t s)
    | .ignored => housekeeping cap now exits s

/-- The input consumed by one loop iteration: the dequeued message (if
any), the current time, and the exit-code oracle. -/
structure IterInput where
  msg : Option PyVal
  now : Int
  exits : Nat → Option Int

/-- Repeated iterations of the manager loop over a list of inputs,
stopping with `none` when an iteration returns or faults. -/
def runSched (cap : Nat) : List IterInput → SchedState → Option SchedState
  | [], s => some s
  | i :: rest, s =>
    match loopIter cap i.now i.exits i.msg s with
    | .cont s2 _ => runSched cap rest s2
    | _ => none

/-- The fields of the status document read and mutated by
`_send_resource_update`.  The unpickled `response_model` is a dict with
further job-owned fields; only the ones the core touches are modelled. -/
structure StatusDoc where
  status : String
  message : String
  accept_timestamp : Int
  timestamp : Int
  datetime : String
  time_delta : Int
deriving DecidableEq

/-- A stored entry: the pickled pair `[http_code, response_model]`. -/
structure StoredDoc where
  http_code : Nat
  model : StatusDoc
deriving DecidableEq

/-- The resource store, keyed by `(user_id, resource_id)`. -/
abbrev Store := List ((String × String) × StoredDoc)

/-- `resource_logger.get(user_id, resource_id)`: the last committed
document for the key, or `none`. -/
def getStore (store : Store) (u r : String) : Option StoredDoc :=
  match store with
  | [] => none
  | ((u2, r2), d) :: rest =>
    if u2 = u ∧ r2 = r then some d else getStore rest u r

/-- `resource_logger.commit(...)`: bind the key to the new document
(last-writer-wins on lookup). -/
def putStore (store : Store) (u r : String) (d : StoredDoc) : Store :=
  ((u, r), d) :: store

/-- A commit of the mutated document, with the expiration passed to
`resource_logger.commit` (`config.REDIS_RESOURCE_EXPIRE_TIME`). -/
structure CommitRec where
  user_id : String
  resource_id : String
  expiration : Int
deriving DecidableEq

/-- The message actually persisted by `_send_resource_update`:
`"The process was terminated by the server: %s" % message`. -/
def serverMessage (m : String) : String :=
  "The process was terminated by the server: " ++ m

/-- `EnqueuedProcess._send_resource_update(status, message)`: read the last
document for `(user_id, resource_id)`; if there is none do nothing;
otherwise set `status`, set `message` to the server-termination string,
read `orig_time = response_model["accept_timestamp"]`, set
`timestamp = time.time()`, `datetime = str(datetime.now())` (the argument
`dtNow`), `time_delta = timestamp - orig_time`, and commit the document
with the configured expiration.  Returns the updated store and the commit
record, if any. -/
def send_resource_update (now : Int) (dtNow : String) (ttl : Int)
    (u r status message : String) (store : Store) : Store × Option CommitRec :=
  match getStore store u r with
  | none => (store, none)
  | some d =>
    let doc := d.model
    let doc2 : StatusDoc :=
      { status := status
        message := serverMessage message
        accept_timestamp := doc.accept_timestamp
        timestamp := now
        datetime := dtNow
        time_delta := now - doc.accept_timestamp }
    (putStore store u r ⟨d.http_code, doc2⟩, some ⟨u, r, ttl⟩)

/-- The terminate calls for a given wrapper identity among the effects of
an iteration. -/
def termCallsFor (i : Nat) (effs : List Effect) : List TermCall :=
  effs.filterMap (fun e =>
    match e with
    | .term c => if c.wid = i then some c else none
    | _ => none)

/-- Concrete waiting wrapper used in witnesses and counterexamples. -/
def wA : Wrapper := ⟨1, 10, 0, false, none⟩

/-- A second concrete waiting wrapper. -/
def wB : Wrapper := ⟨2, 10, 0, false, none⟩

/-- A concrete running (started, not yet exited) wrapper. -/
def wR : Wrapper := ⟨1, 10, 0, true, none⟩

/-- A concrete waiting wrapper with a distinct identity. -/
def wW : Wrapper := ⟨2, 10, 0, false, none⟩

/-- A concrete scheduler state with one running and one waiting wrapper. -/
def sRW : SchedState := ⟨[wR], [wW], 3⟩

/-- A concrete scheduler state mixing exited, running and unstarted
wrappers in `running`. -/
def sMix : SchedState :=
  ⟨[⟨1, 5, 0, true, some 0⟩, ⟨2, 5, 0, true, some 7⟩, ⟨3, 5, 0, true, none⟩],
   [⟨4, 7, 0, false, none⟩], 5⟩

/-- A concrete store holding one status document for the key (u, r). -/
def cexStore : Store := [(("u", "r"), ⟨200, ⟨"accepted", "ok", 5, 5, "d0", 0⟩⟩)]

/-- Claim C4: for every wrapper with `started == false`, `check_timeout`
reports eviction iff `now - enqueuedAt` is strictly greater than the
timeout, and on eviction it has invoked `terminate` with status
`"timeout"`. -/
theorem check_timeout_waiting_iff (w : Wrapper) (now : Int)
    (h : w.started = false) :
    ((check_timeout w now).1 = true ↔ w.timeout < now - w.init_time)
    ∧ ((check_timeout w now).1 = true →
        ∃ c, (check_timeout w now).2 = some c ∧ c.status = "timeout") := by
  by_cases hlt : w.timeout < now - w.init_time
  · refine ⟨by simp [check_timeout, h, hlt], ?_⟩
    intro _
    exact ⟨⟨w.wid, "timeout", timeoutMessage w.timeout⟩,
      by simp [check_timeout, h, hlt], rfl⟩
  · refine ⟨by simp [check_timeout, h, hlt], ?_⟩
    intro ht
    simp [check_timeout, h, hlt] at ht

/-- Witness for C4 at a concrete unstarted wrapper and time. -/
theorem check_timeout_waiting_iff_witness :
    ((check_timeout ⟨0, 10, 0, false, none⟩ 11).1 = true ↔ (10 : Int) < 11 - 0)
    ∧ ((check_timeout ⟨0, 10, 0, false, none⟩ 11).1 = true →
        ∃ c, (check_timeout ⟨0, 10, 0, false, none⟩ 11).2 = some c
          ∧ c.status = "timeout") :=
  check_timeout_waiting_iff ⟨0, 10, 0, false, none⟩ 11 rfl

/-- Claim C5: for every wrapper with `started == true`, `check_timeout`
reports not evicted regardless of elapsed time and never invokes
`terminate`. -/
theorem check_timeout_started_never_evicts (w : Wrapper) (now : Int)
    (h : w.started = true) :
    check_timeout w now = (false, none) := by
  simp [check_timeout, h]

/-- Witness for C5 at a concrete started wrapper far past its timeout. -/
theorem check_timeout_started_never_evicts_witness :
    check_timeout ⟨0, 10, 0, true, none⟩ 1000000 = (false, none) :=
  check_timeout_started_never_evicts ⟨0, 10, 0, true, none⟩ 1000000 rfl

/-- Claim C9: `terminate` on a dead process (already exited or never
started, i.e. `is_alive()` False) performs no forceful kill — the kill
appears among the effects iff the process is alive after the grace
period — and always attempts the final status update; the function is
total, so no branch faults. -/
theorem terminate_idempotent_on_dead_process (alive : Bool)
    (u r st m : String) :
    (TermEffect.forceKill ∈ terminate alive u r st m ↔ alive = true)
    ∧ TermEffect.sendUpdate st m ∈ terminate alive u r st m := by
  cases alive <;> simp [terminate]

/-- Claim C8: the reap step removes from the running set exactly the
wrappers with `started == true` and a non-null exit code, leaves the
waiting set alone, and performs no status update for any reaped wrapper,
whatever its exit code (the `check_exit` call is commented out in the
source). -/
theorem reap_removes_exactly_exited (s : SchedState) :
    (reapStep s).1.waiting = s.waiting
    ∧ (∀ w, w ∈ (reapStep s).1.running ↔
        w ∈ s.running ∧ ¬(w.started = true ∧ w.exit_code ≠ none))
    ∧ (reapStep s).2 = [] := by
  refine ⟨rfl, ?_, rfl⟩
  intro w
  constructor
  · intro hmem
    have h2 : w ∈ s.running ∧ (w.started = false ∨ w.exit_code = none) := by
      simpa [reapStep] using hmem
    obtain ⟨hw, hc⟩ := h2
    refine ⟨hw, ?_⟩
    rintro ⟨hs, he⟩
    rcases hc with hc | hc
    · rw [hs] at hc; cases hc
    · exact he hc
  · rintro ⟨hw, hne⟩
    have hc : w.started = false ∨ w.exit_code = none := by
      by_cases hs : w.started = true
      · by_cases he : w.exit_code = none
        · exact Or.inr he
        · exact absurd ⟨hs, he⟩ hne
      · exact Or.inl (by simpa using hs)
    simpa [reapStep] using And.intro hw hc

/-- Witness for C8 at a concrete state with exit codes 0, 7 and none. -/
theorem reap_removes_exactly_exited_witness :
    (reapStep sMix).1.waiting = sMix.waiting
    ∧ (∀ w, w ∈ (reapStep sMix).1.running ↔
        w ∈ sMix.running ∧ ¬(w.started = true ∧ w.exit_code ≠ none))
    ∧ (reapStep sMix).2 = [] :=
  reap_removes_exactly_exited sMix

/-- Claim C2, amended: on the no-document case nothing happens and no
error is raised; on the stored-document case the persisted document has
status `s`, message equal to the server-termination string followed by the
supplied message (so containing it, not equal to it), `timestamp = now`,
`datetime` the human-readable now, `time_delta = now` minus the stored
`accept_timestamp`, and the commit carries the configured TTL. -/
theorem send_resource_update_final_status (now : Int) (dtNow : String)
    (ttl : Int) (u r st m : String) (store : Store) :
    (getStore store u r = none →
      send_resource_update now dtNow ttl u r st m store = (store, none))
    ∧ (∀ d : StoredDoc, getStore store u r = some d →
        getStore (send_resource_update now dtNow ttl u r st m store).1 u r =
          some ⟨d.http_code,
            { status := st, message := serverMessage m,
              accept_timestamp := d.model.accept_timestamp, timestamp := now,
              datetime := dtNow, time_delta := now - d.model.accept_timestamp }⟩
        ∧ (send_resource_update now dtNow ttl u r st m store).2 =
            some ⟨u, r, ttl⟩) := by
  constructor
  · intro h
    simp [send_resource_update, h]
  · intro d hd
    refine ⟨?_, ?_⟩
    · simp [send_resource_update, hd, putStore, getStore]
    · simp [send_resource_update, hd]

/-- Witness for C2 at a concrete store, in both the stored and the missing
document cases. -/
theorem send_resource_update_final_status_witness :
    ((getStore cexStore "u" "r" = none →
      send_resource_update 17 "dt" 100 "u" "r" "error" "m" cexStore
        = (cexStore, none))
    ∧ (∀ d : StoredDoc, getStore cexStore "u" "r" = some d →
        getStore (send_resource_update 17 "dt" 100 "u" "r" "error" "m" cexStore).1
            "u" "r" =
          some ⟨d.http_code,
            { status := "error", message := serverMessage "m",
              accept_timestamp := d.model.accept_timestamp, timestamp := 17,
              datetime := "dt", time_delta := 17 - d.model.accept_timestamp }⟩
        ∧ (send_resource_update 17 "dt" 100 "u" "r" "error" "m" cexStore).2 =
            some ⟨"u", "r", 100⟩))
    ∧ ((getStore [] "u" "r" = none →
      send_resource_update 17 "dt" 100 "u" "r" "error" "m" []
        = ([], none))) :=
  ⟨send_resource_update_final_status 17 "dt" 100 "u" "r" "error" "m" cexStore,
   (send_resource_update_final_status 17 "dt" 100 "u" "r" "error" "m" []).1⟩

/-- Counterexample for C2 as stated: the persisted message is not the
supplied message `m` but the server-termination string containing it. -/
theorem send_resource_update_message_prefixed_cex :
    (getStore (send_resource_update 17 "dt" 100 "u" "r" "error" "m" cexStore).1
        "u" "r").map (fun d => d.model.message)
      = some "The process was terminated by the server: m"
    ∧ "The process was terminated by the server: m" ≠ "m" :=
  ⟨rfl, by decide⟩

/-- Whether a Python value equals the string STOP, stated at the level of
the embedding, as needed to characterize the submission fields. -/
theorem isSTOPStr_eq_false_of_ne (v : PyVal) (h : v ≠ .pyStr "STOP") :
    isSTOPStr v = false := by
  cases v with
  | pyStr s =>
    have hs : (s == "STOP") = false := by
      apply beq_eq_false_iff_ne.mpr
      intro e
      exact h (by rw [e])
    simp [isSTOPStr, hs]
  | pyInt n => rfl
  | pyNone => rfl
  | pyTuple xs => rfl

/-- Claim C7, amended: a 3-field job submission none of whose fields
equals the string STOP is treated as a submission; discrimination is by
membership of STOP, not by structure, so a 3-field submission with a STOP
field is instead treated as the shutdown sentinel. -/
theorem dispatch_submission_without_stop_fields (f t a : PyVal)
    (h1 : f ≠ .pyStr "STOP") (h2 : t ≠ .pyStr "STOP") (h3 : a ≠ .pyStr "STOP") :
    dispatch (.pyTuple [f, t, a]) = .submission f t a := by
  have e1 := isSTOPStr_eq_false_of_ne f h1
  have e2 := isSTOPStr_eq_false_of_ne t h2
  have e3 := isSTOPStr_eq_false_of_ne a h3
  simp [dispatch, hasSTOP, unpack3, e1, e2, e3]

/-- Witness for the amended C7 at a concrete STOP-free 3-tuple. -/
theorem dispatch_submission_without_stop_fields_witness :
    dispatch (.pyTuple [.pyNone, .pyInt 10, .pyTuple []])
      = .submission .pyNone (.pyInt 10) (.pyTuple []) :=
  dispatch_submission_without_stop_fields .pyNone (.pyInt 10) (.pyTuple [])
    (fun h => nomatch h) (fun h => nomatch h) (fun h => nomatch h)

/-- Counterexample for C7 as stated: a 3-field job submission whose first
field is the string STOP is dispatched as the shutdown sentinel, not as a
submission. -/
theorem stop_field_submission_is_shutdown_cex :
    pyLen (.pyTuple [.pyStr "STOP", .pyInt 10, .pyNone]) = .ok 3
    ∧ dispatch (.pyTuple [.pyStr "STOP", .pyInt 10, .pyNone]) = .shutdown :=
  ⟨rfl, rfl⟩

/-- Claim C10, amended: a dequeued message on which both dispatch guards
are defined but which is neither the sentinel nor of length 3 is silently
discarded — the iteration is identical to one where no message arrived,
falling through to admission, reap and eviction with the sets untouched
by the dispatch. (Messages on which the guards raise `TypeError` abort
the loop instead; see the counterexample.) -/
theorem ignored_message_falls_through (cap : Nat) (now : Int)
    (exits : Nat → Option Int) (d : PyVal) (s : SchedState)
    (h : dispatch d = .ignored) :
    loopIter cap now exits (some d) s = loopIter cap now exits none s := by
  simp [loopIter, h]

/-- Witness for the amended C10 at a concrete 2-tuple message. -/
theorem ignored_message_falls_through_witness :
    loopIter 1 0 (fun _ => none) (some (.pyTuple [.pyInt 1, .pyInt 2])) initState
      = loopIter 1 0 (fun _ => none) none initState :=
  ignored_message_falls_through 1 0 (fun _ => none)
    (.pyTuple [.pyInt 1, .pyInt 2]) initState rfl

/-- Counterexample for C10 as stated: an integer message is neither the
sentinel nor a 3-element submission, yet it is not silently discarded —
the membership guard raises `TypeError` and the iteration aborts instead
of falling through with the sets unchanged. -/
theorem int_message_faults_cex :
    loopIter 2 0 (fun _ => none) (some (.pyInt 42)) initState = .fault
    ∧ loopIter 2 0 (fun _ => none) none initState = .cont initState []
    ∧ (IterOut.fault ≠ .cont initState []) :=
  ⟨rfl, rfl, by decide⟩

/-- Claim C1, amended: the admission step performs at most one admission
per loop iteration — if the running set is below capacity and the waiting
set is non-empty it removes exactly one wrapper from the waiting set,
inserts it (started) into the running set and calls `start()` on it, and
otherwise it changes nothing.  It does not repeat, so after the step the
running set can still be below capacity with the waiting set non-empty. -/
theorem admission_admits_at_most_one (cap : Nat) (s : SchedState) :
    (∀ w ws, s.running.length < cap → s.waiting = w :: ws →
        admissionStep cap s =
          ({ s with running := { w with started := true } :: s.running,
                    waiting := ws },
           [Effect.start w.wid]))
    ∧ (¬ s.running.length < cap → admissionStep cap s = (s, []))
    ∧ (s.waiting = [] → admissionStep cap s = (s, [])) := by
  refine ⟨?_, ?_, ?_⟩
  · intro w ws hlt hw
    simp [admissionStep, hlt, hw]
  · intro h
    simp [admissionStep, h]
  · intro hw
    by_cases hlt : s.running.length < cap <;> simp [admissionStep, hlt, hw]

/-- Witness for the amended C1: at a below-capacity state with two waiting
wrappers, exactly the first is admitted and started. -/
theorem admission_admits_at_most_one_witness :
    admissionStep 2 ⟨[], [wA, wB], 3⟩
      = (⟨[{ wA with started := true }], [wB], 3⟩, [Effect.start wA.wid]) :=
  (admission_admits_at_most_one 2 ⟨[], [wA, wB], 3⟩).1 wA [wB]
    (by decide) rfl

/-- Counterexample for C1 as stated: with capacity 2, no running wrapper
and two waiting wrappers, the state immediately after the admission step
has neither reached capacity nor emptied the waiting set, because the step
admits a single wrapper instead of repeating. -/
theorem admission_not_exhaustive_cex :
    (admissionStep 2 ⟨[], [wA, wB], 3⟩).1.running.length < 2
    ∧ (admissionStep 2 ⟨[], [wA, wB], 3⟩).1.waiting ≠ [] := by
  decide

/-- Helper: the admission step keeps the running set within capacity. -/
theorem admissionStep_running_le (cap : Nat) (s : SchedState)
    (h : s.running.length ≤ cap) :
    (admissionStep cap s).1.running.length ≤ cap := by
  by_cases hlt : s.running.length < cap
  · cases hw : s.waiting with
    | nil => simpa [admissionStep, hlt, hw] using h
    | cons w ws =>
      simp [admissionStep, hlt, hw]
      omega
  · simpa [admissionStep, hlt] using h

/-- Helper: the housekeeping tail of an iteration keeps the running set
within capacity. -/
theorem housekeeping_running_le (cap : Nat) (now : Int)
    (exits : Nat → Option Int) (s s2 : SchedState) (effs : List Effect)
    (hcont : housekeeping cap now exits s = .cont s2 effs)
    (h : s.running.length ≤ cap) : s2.running.length ≤ cap := by
  have h1 :
      (evictStep now (reapStep (applyExits exits (admissionStep cap s).1)).1).1
        = s2 := by
    have := hcont
    simp [housekeeping] at this
    exact this.1
  have e1 :
      (evictStep now (reapStep (applyExits exits (admissionStep cap s).1)).1).1.running
        = (reapStep (applyExits exits (admissionStep cap s).1)).1.running := rfl
  have e2 :
      (reapStep (applyExits exits (admissionStep cap s).1)).1.running.length
        ≤ (applyExits exits (admissionStep cap s).1).running.length := by
    simp [reapStep]
    exact List.length_filter_le _ _
  have e3 :
      (applyExits exits (admissionStep cap s).1).running.length
        = (admissionStep cap s).1.running.length := by
    simp [applyExits]
  have e4 := admissionStep_running_le cap s h
  rw [← h1, e1]
  omega

/-- Helper: a continuing loop iteration keeps the running set within
capacity. -/
theorem loopIter_cont_running_le (cap : Nat) (now : Int)
    (exits : Nat → Option Int) (msg : Option PyVal) (s s2 : SchedState)
    (effs : List Effect)
    (hcont : loopIter cap now exits msg s = .cont s2 effs)
    (h : s.running.length ≤ cap) : s2.running.length ≤ cap := by
  cases msg with
  | none => exact housekeeping_running_le cap now exits s s2 effs hcont h
  | some d =>
    rw [loopIter] at hcont
    cases hd : dispatch d with
    | typeError => rw [hd] at hcont; cases hcont
    | shutdown => rw [hd] at hcont; cases hcont
    | ignored =>
      rw [hd] at hcont
      exact housekeeping_running_le cap now exits s s2 effs hcont h
    | submission f t a =>
      rw [hd] at hcont
      exact housekeeping_running_le cap now exits (submitStep now t s) s2 effs
        hcont h

/-- Helper: along any run of the manager loop, the running set stays
within capacity. -/
theorem runSched_running_le (cap : Nat) (inputs : List IterInput)
    (s0 s : SchedState) (h0 : s0.running.length ≤ cap)
    (h : runSched cap inputs s0 = some s) : s.running.length ≤ cap := by
  induction inputs generalizing s0 with
  | nil =>
    simp [runSched] at h
    rw [← h]
    exact h0
  | cons i rest ih =>
    rw [runSched] at h
    cases hit : loopIter cap i.now i.exits i.msg s0 with
    | cont s1 effs =>
      rw [hit] at h
      exact ih s1
        (loopIter_cont_running_le cap i.now i.exits i.msg s0 s1 effs hit h0) h
    | stopped effs => rw [hit] at h; cases h
    | fault => rw [hit] at h; cases h

/-- Claim C6: at every observation point immediately following an
admission step in any run of the manager loop from the initial state, the
size of the running set is at most the worker capacity — whichever message
(none, ignored, or a submission with any timeout) was dispatched in the
iteration performing that admission. -/
theorem admission_respects_capacity (cap : Nat) (inputs : List IterInput)
    (s : SchedState) (h : runSched cap inputs initState = some s)
    (now : Int) (tv : PyVal) :
    (admissionStep cap s).1.running.length ≤ cap
    ∧ (admissionStep cap (submitStep now tv s)).1.running.length ≤ cap := by
  have hs : s.running.length ≤ cap :=
    runSched_running_le cap inputs initState s (by simp [initState]) h
  exact ⟨admissionStep_running_le cap s hs,
    admissionStep_running_le cap (submitStep now tv s) hs⟩

/-- Witness for C6 at the empty run and a concrete submission. -/
theorem admission_respects_capacity_witness :
    (admissionStep 2 initState).1.running.length ≤ 2
    ∧ (admissionStep 2 (submitStep 0 (.pyInt 5) initState)).1.running.length ≤ 2 :=
  admission_respects_capacity 2 [] initState rfl 0 (.pyInt 5)

/-- Helper: `termCallsFor` distributes over appended effect lists. -/
theorem termCallsFor_append (i : Nat) (a b : List Effect) :
    termCallsFor i (a ++ b) = termCallsFor i a ++ termCallsFor i b := by
  simp [termCallsFor, List.filterMap_append]

/-- Helper: the terminate calls for identity `i` among a uniform drain of
a wrapper list are those of the wrappers with identity `i`. -/
theorem termCallsFor_map_term (i : Nat) (l : List Wrapper) (st m : String) :
    termCallsFor i (l.map (fun w => Effect.term ⟨w.wid, st, m⟩)) =
      (l.filter (fun w => w.wid == i)).map
        (fun w => (⟨w.wid, st, m⟩ : TermCall)) := by
  induction l with
  | nil => rfl
  | cons w tl ih =>
    by_cases hw : w.wid = i
    · simp [termCallsFor, List.filterMap_cons, List.filter_cons, hw] at ih ⊢
      exact ih
    · simp [termCallsFor, List.filterMap_cons, List.filter_cons, hw] at ih ⊢
      exact ih

/-- Helper: filtering a wrapper list with pairwise-distinct identities for
the identity of one of its members yields exactly that member. -/
theorem widFilter_eq_single (l : List Wrapper) (w : Wrapper)
    (hn : (l.map Wrapper.wid).Nodup) (hw : w ∈ l) :
    l.filter (fun x => x.wid == w.wid) = [w] := by
  induction l with
  | nil => cases hw
  | cons a tl ih =>
    rw [List.map_cons, List.nodup_cons] at hn
    obtain ⟨ha, ht⟩ := hn
    rcases List.mem_cons.mp hw with rfl | hw2
    · have hnil : tl.filter (fun x => x.wid == w.wid) = [] := by
        apply List.filter_eq_nil_iff.mpr
        intro x hx
        simp only [beq_iff_eq]
        intro e
        exact ha (e ▸ List.mem_map_of_mem Wrapper.wid hx)
      simp [List.filter_cons, hnil]
    · have hne : ¬ a.wid = w.wid := by
        intro e
        exact ha (e ▸ List.mem_map_of_mem Wrapper.wid hw2)
      simp [List.filter_cons, hne]
      exact ih ht hw2

/-- Helper: filtering a wrapper list for an identity it does not contain
yields the empty list. -/
theorem widFilter_eq_nil (l : List Wrapper) (i : Nat)
    (h : i ∉ l.map Wrapper.wid) :
    l.filter (fun x => x.wid == i) = [] := by
  apply List.filter_eq_nil_iff.mpr
  intro x hx
  simp only [beq_iff_eq]
  intro e
  exact h (e ▸ List.mem_map_of_mem Wrapper.wid hx)

/-- Claim C3: when the loop dequeues the shutdown sentinel it returns
after the drain (no further iteration), having called `terminate` exactly
once, with status error, on every running wrapper (running-shutdown
message) and exactly once on every waiting wrapper (waiting-shutdown
message, indicating a waiting process terminated by shutdown), closing the
channel and starting nothing — in particular no drained waiting wrapper is
ever started. -/
theorem shutdown_drains_all_once (cap : Nat) (now : Int)
    (exits : Nat → Option Int) (d : PyVal) (s : SchedState)
    (hd : dispatch d = .shutdown)
    (hnodup : ((s.running ++ s.waiting).map Wrapper.wid).Nodup) :
    loopIter cap now exits (some d) s = .stopped (shutdownEffects s)
    ∧ (∀ w ∈ s.running,
        termCallsFor w.wid (shutdownEffects s)
          = [⟨w.wid, "error", runningShutdownMsg⟩])
    ∧ (∀ w ∈ s.waiting,
        termCallsFor w.wid (shutdownEffects s)
          = [⟨w.wid, "error", waitingShutdownMsg⟩])
    ∧ Effect.closeChannel ∈ shutdownEffects s
    ∧ (∀ i, Effect.start i ∉ shutdownEffects s) := by
  rw [List.map_append] at hnodup
  obtain ⟨hnr, hnw, hdisj⟩ := List.nodup_append.mp hnodup
  refine ⟨by simp [loopIter, hd], ?_, ?_, ?_, ?_⟩
  · intro w hw
    rw [shutdownEffects, termCallsFor_append, termCallsFor_append,
      termCallsFor_map_term, termCallsFor_map_term]
    rw [widFilter_eq_single s.running w hnr hw]
    rw [widFilter_eq_nil s.waiting w.wid
      (fun hmem => hdisj (List.mem_map_of_mem Wrapper.wid hw) hmem)]
    rfl
  · intro w hw
    rw [shutdownEffects, termCallsFor_append, termCallsFor_append,
      termCallsFor_map_term, termCallsFor_map_term]
    rw [widFilter_eq_single s.waiting w hnw hw]
    rw [widFilter_eq_nil s.running w.wid
      (fun hmem => hdisj hmem (List.mem_map_of_mem Wrapper.wid hw))]
    rfl
  · simp [shutdownEffects]
  · intro i
    simp [shutdownEffects]

/-- Witness for C3 at a concrete state with one running and one waiting
wrapper and the literal STOP sentinel. -/
theorem shutdown_drains_all_once_witness :
    loopIter 1 0 (fun _ => none) (some (.pyStr "STOP")) sRW
        = .stopped (shutdownEffects sRW)
    ∧ (∀ w ∈ sRW.running,
        termCallsFor w.wid (shutdownEffects sRW)
          = [⟨w.wid, "error", runningShutdownMsg⟩])
    ∧ (∀ w ∈ sRW.waiting,
        termCallsFor w.wid (shutdownEffects sRW)
          = [⟨w.wid, "error", waitingShutdownMsg⟩])
    ∧ Effect.closeChannel ∈ shutdownEffects sRW
    ∧ (∀ i, Effect.start i ∉ shutdownEffects sRW) :=
  shutdown_drains_all_once 1 0 (fun _ => none) (.pyStr "STOP") sRW rfl
    (by decide)

end ProcessQueue
